import Mathlib

/-!
Shallow embedding of the WaterTankGeantSim repository (a Geant4 water
Cherenkov tank simulation) together with proofs of the specification
claims about its user-action and sensitive-detector code.

Machine numbers are modelled by exact rationals; Geant4 CLHEP internal
units (millimeter, nanosecond, MeV equal to one) are spelled out so that
unit divisions in the ntuple-filling code stay faithful.
-/

namespace WaterTank

/-- CLHEP internal unit: millimeter is one. -/
def mm : ℚ := 1

/-- CLHEP internal unit: nanosecond is one. -/
def ns : ℚ := 1

/-- CLHEP internal unit: MeV is one. -/
def MeV : ℚ := 1

/-- Derived unit: GeV. -/
def GeV : ℚ := 1000 * MeV

/-- Derived unit: nanometer. -/
def nm : ℚ := mm / 1000000

/-- Derived unit: centimeter. -/
def cm : ℚ := 10 * mm

/-- Particle species as the repository code distinguishes them through
G4ParticleDefinition pointers: the code only ever tests a track against the
optical photon definition, every other species is kept abstract through its
PDG code. -/
inductive ParticleKind
  | opticalPhoton
  | other (pdg : Int)
deriving DecidableEq, Repr

/-- Step status of a post-step point (G4StepStatus); the sensitive detectors
only ever test for fGeomBoundary. -/
inductive StepStatus
  | geomBoundary
  | otherStatus
deriving DecidableEq, Repr

/-! ## WaterTankSteppingAction (claim C2)

src/src/WaterTankSteppingAction.cc, UserSteppingAction. -/

/-- Data of one simulation step as read by WaterTankSteppingAction: the
logical volume of the pre-step touchable, the particle definition of the
track, and the total energy deposit of the step. Logical volumes are
identified by numeric ids standing for the C++ pointers. -/
structure SimpleStep where
  preLogicalVolume : Nat
  particle : ParticleKind
  totalEnergyDeposit : ℚ
deriving DecidableEq

/-- WaterTankSteppingAction::UserSteppingAction: given the scoring volume
(the water logical volume fetched from the detector construction) and the
current value of the per-event deposited-energy accumulator fEdep of the
event action, returns the accumulator after the step is processed. The code
returns early when the pre-step volume is not the scoring volume and when
the track is an optical photon; otherwise it adds the total energy deposit. -/
def userSteppingAction (scoringVolume : Nat) (edep : ℚ) (step : SimpleStep) : ℚ :=
  if step.preLogicalVolume ≠ scoringVolume then edep
  else if step.particle = ParticleKind.opticalPhoton then edep
  else edep + step.totalEnergyDeposit

/-- C2: the per-event deposited-energy accumulator is increased by the total
energy deposit of the step exactly when the pre-step volume is the water
scoring volume and the track is not an optical photon; for every other step
the accumulator is unchanged. -/
theorem c2_edep_accumulation (scoringVolume : Nat) (edep : ℚ) (step : SimpleStep) :
    userSteppingAction scoringVolume edep step =
      if step.preLogicalVolume = scoringVolume ∧ step.particle ≠ ParticleKind.opticalPhoton
      then edep + step.totalEnergyDeposit else edep := by
  unfold userSteppingAction
  by_cases h1 : step.preLogicalVolume = scoringVolume <;>
    by_cases h2 : step.particle = ParticleKind.opticalPhoton <;>
    simp [h1, h2]

/-! ## WaterTankDOMSD (claims C1 and C9)

src/src/WaterTankDOMSD.cc, ProcessHits (lines 56 to 203). -/

/-- Track status relevant to the DOM sensitive detector: the track either
keeps being tracked or was set to fStopAndKill. -/
inductive TrackStatus
  | alive
  | stopAndKill
deriving DecidableEq, Repr

/-- Planck constant in CLHEP internal units (MeV times ns). -/
def h_Planck : ℚ := 413566733 / 10 ^ 20

/-- Speed of light in CLHEP internal units (mm per ns). -/
def c_light : ℚ := 299792458 / 1000000

/-- Pre- or post-step point data read by WaterTankDOMSD::ProcessHits.
Physical volumes are numeric ids standing for the C++ pointers, with none
modelling a null pointer. -/
structure DOMStepPoint where
  physicalVolume : Option Nat
  stepStatus : StepStatus
  kineticEnergy : ℚ
  globalTime : ℚ
  momentumDirection : ℚ × ℚ × ℚ
  position : ℚ × ℚ × ℚ
deriving DecidableEq

/-- Step and track data read by WaterTankDOMSD::ProcessHits. -/
structure DOMStep where
  particle : ParticleKind
  trackKineticEnergy : ℚ
  trackID : Int
  parentID : Int
  prePoint : Option DOMStepPoint
  postPoint : Option DOMStepPoint
deriving DecidableEq

/-- Configuration of the DOM sensitive detector at the time ProcessHits
runs: the wired DOM and water physical volumes, the optical surface name,
the cached hits collection flag, and the EFFICIENCY material property of
the water-to-DOM logical border surface. The efficiency field is the Value
function of the G4MaterialPropertyVector when the whole lookup chain in the
code (border surface, cast to G4OpticalSurface, material properties table,
EFFICIENCY property) succeeds, and none when any link of it fails. -/
structure DOMSDConfig where
  domPhysicalVolume : Option Nat
  waterPhysicalVolume : Option Nat
  domOpticalSurfaceName : String
  efficiency : Option (ℚ → ℚ)
  hasHitsCollection : Bool

/-- Hit object built by WaterTankDOMSD::ProcessHits on detection. -/
structure DOMHit where
  time : ℚ
  position : ℚ × ℚ × ℚ
  direction : ℚ × ℚ × ℚ
  photonEnergy : ℚ
  wavelength : ℚ
  trackID : Int
  parentID : Int
deriving DecidableEq

/-- Result of one WaterTankDOMSD::ProcessHits call: the hit inserted into
the hits collection if any, the G4bool return value, and the status of the
track after the call. -/
structure DOMProcessResult where
  insertedHit : Option DOMHit
  returned : Bool
  trackStatus : TrackStatus
deriving DecidableEq

/-- WaterTankDOMSD::ProcessHits. The argument u stands for the single
G4UniformRand() draw the code consumes when the detection probability is
below one; photons with unit momentum direction are assumed so that the
unit() call is the identity on the stored direction. -/
def domProcessHits (sd : DOMSDConfig) (step : DOMStep) (u : ℚ) : DOMProcessResult :=
  let noHit : DOMProcessResult := ⟨none, false, TrackStatus.alive⟩
  if step.particle ≠ ParticleKind.opticalPhoton then noHit
  else if sd.domPhysicalVolume = none ∨ sd.waterPhysicalVolume = none then noHit
  else
    match step.prePoint, step.postPoint with
    | some pre, some post =>
      match pre.physicalVolume, post.physicalVolume with
      | some preVol, some postVol =>
        if ¬ (some preVol = sd.waterPhysicalVolume ∧ some postVol = sd.domPhysicalVolume) then
          noHit
        else if post.stepStatus ≠ StepStatus.geomBoundary then noHit
        else if ¬ sd.hasHitsCollection then noHit
        else
          let photonEnergy :=
            if 0 < post.kineticEnergy then post.kineticEnergy else step.trackKineticEnergy
          let detectionProbability :=
            if sd.domOpticalSurfaceName.isEmpty then 1
            else
              match sd.efficiency with
              | some f => f photonEnergy
              | none => 1
          if detectionProbability ≤ 0 then noHit
          else
            let p := min 1 (max 0 detectionProbability)
            if p < 1 ∧ p < u then noHit
            else
              let wavelength := if 0 < photonEnergy then h_Planck * c_light / photonEnergy else 0
              { insertedHit := some
                  { time := post.globalTime
                    position := post.position
                    direction := post.momentumDirection
                    photonEnergy := photonEnergy
                    wavelength := wavelength
                    trackID := step.trackID
                    parentID := step.parentID }
                returned := true
                trackStatus := TrackStatus.stopAndKill }
      | _, _ => noHit
    | _, _ => noHit

/-- Guard of WaterTankDOMSD::ProcessHits before the efficiency sampling
that concerns the geometry of the step: both step points exist, their
physical volumes are non-null and equal the wired water and DOM physical
volumes respectively, and the post-step point sits on a geometry boundary. -/
def domWaterToDOMBoundary (sd : DOMSDConfig) (step : DOMStep) : Bool :=
  match step.prePoint, step.postPoint with
  | some pre, some post =>
    pre.physicalVolume.isSome && post.physicalVolume.isSome &&
      decide (pre.physicalVolume = sd.waterPhysicalVolume) &&
      decide (post.physicalVolume = sd.domPhysicalVolume) &&
      decide (post.stepStatus = StepStatus.geomBoundary)
  | _, _ => false

/-- Photon energy used by ProcessHits: the post-step kinetic energy, with
the track kinetic energy as fallback when it is not positive. -/
def domPhotonEnergy (step : DOMStep) (post : DOMStepPoint) : ℚ :=
  if 0 < post.kineticEnergy then post.kineticEnergy else step.trackKineticEnergy

/-- C1: a step produces a DOM hit only when an optical photon crosses from
the water physical volume into the DOM physical volume at a geometry
boundary (first conjunct: any other step inserts nothing and returns
false); and for such a crossing, with volumes wired, a hits collection
present and the tabulated EFFICIENCY curve available on the named optical
surface, the hit is kept exactly when the uniform draw u does not exceed
the clamped efficiency evaluated at the photon energy, the kept hit being
inserted with return value true and the discarded one leaving the
collection untouched with return value false. -/
theorem c1_dom_efficiency_sampling :
    (∀ (sd : DOMSDConfig) (step : DOMStep) (u : ℚ),
      (step.particle ≠ ParticleKind.opticalPhoton ∨ domWaterToDOMBoundary sd step = false) →
        (domProcessHits sd step u).insertedHit = none ∧
        (domProcessHits sd step u).returned = false) ∧
    (∀ (sd : DOMSDConfig) (step : DOMStep) (u : ℚ) (f : ℚ → ℚ) (post : DOMStepPoint),
      step.particle = ParticleKind.opticalPhoton →
      domWaterToDOMBoundary sd step = true →
      step.postPoint = some post →
      sd.hasHitsCollection = true →
      sd.domOpticalSurfaceName.isEmpty = false →
      sd.efficiency = some f →
      ((domProcessHits sd step u).returned = true ↔
        0 < f (domPhotonEnergy step post) ∧
          (1 ≤ min 1 (max 0 (f (domPhotonEnergy step post))) ∨
            u ≤ min 1 (max 0 (f (domPhotonEnergy step post))))) ∧
      ((domProcessHits sd step u).insertedHit ≠ none ↔
        (domProcessHits sd step u).returned = true)) := by
  constructor
  · intro sd step u h
    rcases h with h | h
    · unfold domProcessHits; simp [h]
    · unfold domProcessHits domWaterToDOMBoundary at *
      rcases hpre : step.prePoint with _ | pre <;>
        rcases hpost : step.postPoint with _ | post <;>
        simp only [hpre, hpost] at h ⊢
      · split_ifs <;> simp
      · split_ifs <;> simp
      · split_ifs <;> simp
      · rcases hprev : pre.physicalVolume with _ | preVol <;>
          rcases hpostv : post.physicalVolume with _ | postVol <;>
          simp only [hprev, hpostv] at h ⊢
        · split_ifs <;> simp
        · split_ifs <;> simp
        · split_ifs <;> simp
        · simp only [Option.isSome_some, Bool.true_and, Bool.and_eq_false_iff,
            decide_eq_false_iff_not] at h
          by_cases hopt2 : step.particle ≠ ParticleKind.opticalPhoton
          · rw [if_pos hopt2]; exact ⟨rfl, rfl⟩
          rw [if_neg hopt2]
          by_cases hw2 : sd.domPhysicalVolume = none ∨ sd.waterPhysicalVolume = none
          · rw [if_pos hw2]; exact ⟨rfl, rfl⟩
          rw [if_neg hw2]
          rcases h with (hw' | hd') | hs'
          · rw [if_pos (fun hc => hw' hc.1)]; exact ⟨rfl, rfl⟩
          · rw [if_pos (fun hc => hd' hc.2)]; exact ⟨rfl, rfl⟩
          · by_cases hv : ¬ (some preVol = sd.waterPhysicalVolume ∧
                some postVol = sd.domPhysicalVolume)
            · rw [if_pos hv]; exact ⟨rfl, rfl⟩
            · rw [if_neg hv, if_pos hs']; exact ⟨rfl, rfl⟩
  · intro sd step u f post hopt hcross hpost hcoll hname heff
    unfold domWaterToDOMBoundary at hcross
    rcases hpre : step.prePoint with _ | pre
    · rw [hpre, hpost] at hcross; simp at hcross
    rw [hpre, hpost] at hcross
    simp only [Bool.and_eq_true, decide_eq_true_eq, Option.isSome_iff_exists] at hcross
    obtain ⟨⟨⟨⟨⟨preVol, hprev⟩, ⟨postVol, hpostv⟩⟩, hw⟩, hd⟩, hb⟩ := hcross
    have hwired : ¬ (sd.domPhysicalVolume = none ∨ sd.waterPhysicalVolume = none) := by
      rw [← hw, ← hd, hprev, hpostv]; simp
    have hvols : ¬ ¬ (pre.physicalVolume = sd.waterPhysicalVolume ∧
        post.physicalVolume = sd.domPhysicalVolume) := not_not_intro ⟨hw, hd⟩
    have he : (if 0 < post.kineticEnergy then post.kineticEnergy else step.trackKineticEnergy)
        = domPhotonEnergy step post := rfl
    unfold domProcessHits
    rw [hpre, hpost]
    dsimp only
    rw [if_neg (by simp [hopt]), if_neg hwired]
    rw [hprev, hpostv] at hvols ⊢
    dsimp only
    have hbP : ¬ (post.stepStatus ≠ StepStatus.geomBoundary) := by simp [hb]
    have hcollP : ¬ ¬ sd.hasHitsCollection = true := by simp [hcoll]
    have hnameP : ¬ sd.domOpticalSurfaceName.isEmpty = true := by simp [hname]
    rw [if_neg hvols, if_neg hbP, if_neg hcollP, if_neg hnameP, heff]
    dsimp only
    rw [he]
    split_ifs with hneg hdraw
    · exact ⟨iff_of_false (by simp) (fun hc => absurd hc.1 (not_lt.mpr hneg)),
        iff_of_false (by simp) (by simp)⟩
    · refine ⟨iff_of_false (by simp) ?_, iff_of_false (by simp) (by simp)⟩
      exact fun hc => (not_or.mpr ⟨not_le.mpr hdraw.1, not_le.mpr hdraw.2⟩) hc.2
    · push_neg at hneg
      refine ⟨iff_of_true rfl ⟨hneg, ?_⟩, iff_of_true (by simp) rfl⟩
      rcases not_and_or.mp hdraw with hp1 | hpu
      · exact Or.inl (not_lt.mp hp1)
      · exact Or.inr (not_lt.mp hpu)
    · push_neg at hneg
      refine ⟨iff_of_true rfl ⟨hneg, ?_⟩, iff_of_true (by simp) rfl⟩
      rcases not_and_or.mp hdraw with hp1 | hpu
      · exact Or.inl (not_lt.mp hp1)
      · exact Or.inr (not_lt.mp hpu)


/-- Sample pre-step point in the water volume used to exercise the DOM
sensitive detector theorems. -/
def c1SamplePre : DOMStepPoint :=
  ⟨some 1, StepStatus.otherStatus, 3 / 1000000, 9, (0, 0, 1), (0, 0, 90)⟩

/-- Sample post-step point on the DOM boundary. -/
def c1SamplePost : DOMStepPoint :=
  ⟨some 2, StepStatus.geomBoundary, 3 / 1000000, 10, (0, 0, 1), (0, 0, 100)⟩

/-- Sample sensitive-detector configuration with a flat 25 percent
efficiency curve. -/
def c1SampleSD : DOMSDConfig :=
  ⟨some 2, some 1, "DOMOpticalSurfaceBorder", some (fun _ => 1 / 4), true⟩

/-- Sample optical-photon step crossing from water into the DOM. -/
def c1SampleStep : DOMStep :=
  ⟨ParticleKind.opticalPhoton, 3 / 1000000, 5, 1, some c1SamplePre, some c1SamplePost⟩

/-- Sample non-optical step (a muon track crossing the same boundary). -/
def c1BadStep : DOMStep :=
  ⟨ParticleKind.other 13, 1, 1, 0, some c1SamplePre, some c1SamplePost⟩

/-- Witness for C1: a concrete optical photon crossing water to DOM with
draw u below the efficiency is kept, and a concrete non-optical step
inserts nothing. -/
theorem c1_dom_efficiency_sampling_witness :
    (domProcessHits c1SampleSD c1SampleStep (1 / 8)).returned = true ∧
    (domProcessHits c1SampleSD c1BadStep (1 / 8)).insertedHit = none := by
  constructor
  · exact (c1_dom_efficiency_sampling.2 c1SampleSD c1SampleStep (1 / 8)
      (fun _ => 1 / 4) c1SamplePost rfl (by decide) rfl rfl rfl rfl).1.mpr
      ⟨by norm_num, Or.inr (by norm_num [min_def, max_def])⟩
  · exact (c1_dom_efficiency_sampling.1 c1SampleSD c1BadStep (1 / 8)
      (Or.inl (by decide))).1

set_option maxHeartbeats 2000000 in
/-- Helper: every ProcessHits call either returns the untouched no-hit
result or inserts a hit, returns true and kills the track. -/
theorem domProcessHits_shape (sd : DOMSDConfig) (step : DOMStep) (u : ℚ) :
    domProcessHits sd step u = ⟨none, false, TrackStatus.alive⟩ ∨
    ∃ hit, domProcessHits sd step u = ⟨some hit, true, TrackStatus.stopAndKill⟩ := by
  unfold domProcessHits
  rcases hpre : step.prePoint with _ | pre <;>
    rcases hpost : step.postPoint with _ | post
  · dsimp only; split_ifs <;> exact Or.inl rfl
  · dsimp only; split_ifs <;> exact Or.inl rfl
  · dsimp only; split_ifs <;> exact Or.inl rfl
  · dsimp only
    rcases hprev : pre.physicalVolume with _ | preVol <;>
      rcases hpostv : post.physicalVolume with _ | postVol
    · dsimp only; split_ifs <;> exact Or.inl rfl
    · dsimp only; split_ifs <;> exact Or.inl rfl
    · dsimp only; split_ifs <;> exact Or.inl rfl
    · rcases heff : sd.efficiency with _ | f <;> dsimp only <;> split_ifs <;>
        first | exact Or.inl rfl | exact Or.inr ⟨_, rfl⟩

/-- Helper: whenever ProcessHits inserts a hit it also sets the track
status to fStopAndKill in the same call. -/
theorem domHit_kills (sd : DOMSDConfig) (step : DOMStep) (u : ℚ) :
    (domProcessHits sd step u).insertedHit ≠ none →
      (domProcessHits sd step u).trackStatus = TrackStatus.stopAndKill := by
  intro h
  rcases domProcessHits_shape sd step u with hs | ⟨hit, hs⟩
  · rw [hs] at h; exact absurd rfl h
  · rw [hs]

/-- Number of DOM hits contributed by the successive steps of one optical
photon track within an event: the transport engine hands a step to the
sensitive detector only while the track is alive, so folding stops once
the status becomes fStopAndKill. Each pair carries the uniform draw
consumed by that call. -/
def domTrackHits (sd : DOMSDConfig) : List (DOMStep × ℚ) → Nat
  | [] => 0
  | (s, u) :: rest =>
    let r := domProcessHits sd s u
    let c := if r.insertedHit ≠ none then 1 else 0
    match r.trackStatus with
    | TrackStatus.stopAndKill => c
    | TrackStatus.alive => c + domTrackHits sd rest

/-- C9: a recorded DOM hit always comes with the track status set to
fStopAndKill in the same ProcessHits call, and consequently one optical
photon track contributes at most one DOM hit per event, its steps after
the detection never being processed. -/
theorem c9_dom_hit_kills_track :
    (∀ (sd : DOMSDConfig) (step : DOMStep) (u : ℚ),
      (domProcessHits sd step u).insertedHit ≠ none →
        (domProcessHits sd step u).trackStatus = TrackStatus.stopAndKill) ∧
    (∀ (sd : DOMSDConfig) (l : List (DOMStep × ℚ)), domTrackHits sd l ≤ 1) := by
  refine ⟨domHit_kills, fun sd l => ?_⟩
  induction l with
  | nil => exact Nat.zero_le 1
  | cons head rest ih =>
    obtain ⟨s, u⟩ := head
    unfold domTrackHits
    dsimp only
    rcases hst : (domProcessHits sd s u).trackStatus with _ | _
    · have hnone : (domProcessHits sd s u).insertedHit = none := by
        by_contra hc
        rw [domHit_kills sd s u hc] at hst
        exact absurd hst (by simp)
      simpa [hnone] using ih
    · split_ifs <;> simp

/-- Witness for C9: the sample detection kills the concrete photon track,
and a repeated concrete detected step still yields at most one hit. -/
theorem c9_dom_hit_kills_track_witness :
    (domProcessHits c1SampleSD c1SampleStep (1 / 8)).trackStatus = TrackStatus.stopAndKill ∧
    domTrackHits c1SampleSD [(c1SampleStep, 1 / 8), (c1SampleStep, 1 / 8)] ≤ 1 :=
  ⟨c9_dom_hit_kills_track.1 c1SampleSD c1SampleStep (1 / 8)
      (by
        have hE : ("DOMOpticalSurfaceBorder" : String).isEmpty = false := rfl
        norm_num [domProcessHits, c1SampleSD, c1SampleStep, c1SamplePre, c1SamplePost, hE,
          min_def, max_def]
        simp),
    c9_dom_hit_kills_track.2 c1SampleSD [(c1SampleStep, 1 / 8), (c1SampleStep, 1 / 8)]⟩

/-! ## WaterTankScintillatorSD (claim C8)

src/src/WaterTankPrimaryGeneratorAction.cc carries the
WaterTankScintillatorSD.cc implementation (ProcessHits at lines 401 to 489),
with the class declaration in src/unnamed/part_012. -/

/-- Step data consumed by WaterTankScintillatorSD::ProcessHits: the track
particle and id, the energy deposit, whether the pre-step touchable handle
is non-null, the copy number at depth zero (the bar index), the name of the
pre-step volume, and the hit time and position. -/
structure ScintStep where
  particle : ParticleKind
  totalEnergyDeposit : ℚ
  touchablePresent : Bool
  copyNumber : Int
  volumeName : String
  globalTime : ℚ
  position : ℚ × ℚ × ℚ
  trackID : Int
  pdgCode : Int
deriving DecidableEq

/-- Hit object built by WaterTankScintillatorSD::ProcessHits. -/
structure ScintHit where
  time : ℚ
  position : ℚ × ℚ × ℚ
  edep : ℚ
  layer : Int
  barIndex : Int
  trackID : Int
  pdgCode : Int
deriving DecidableEq

/-- fEnergyThreshold as set in the constructor: 0.1 MeV. -/
def scintEnergyThreshold : ℚ := 1 / 10 * MeV

/-- Layer id derived from the pre-step volume name; none makes the code
skip the step (unknown volume). -/
def layerOfName (name : String) : Option Int :=
  if name = "ScintBarL0" then some 0
  else if name = "ScintBarL1" then some 1
  else none

/-- Dedup key of fTrackBarHits: trackID * 10000 + layer * 1000 + barIndex. -/
def scintKey (trackID layer barIndex : Int) : Int :=
  trackID * 10000 + layer * 1000 + barIndex

/-- State of the scintillator sensitive detector within one event: the
fTrackBarHits map from dedup key to first hit time (a list of pairs
standing for the std::map) and the hits collection in insertion order.
Initialize allocates a fresh collection and clears the map. -/
structure ScintSDState where
  trackBarHits : List (Int × ℚ)
  hits : List ScintHit
deriving DecidableEq

/-- State after WaterTankScintillatorSD::Initialize. -/
def scintInitialState : ScintSDState := ⟨[], []⟩

/-- Membership test of the std::map (find against end). -/
def mapContains (m : List (Int × ℚ)) (k : Int) : Bool :=
  m.any (fun p => p.1 = k)

/-- Hit constructed from a step and its layer. -/
def mkScintHit (s : ScintStep) (layer : Int) : ScintHit :=
  ⟨s.globalTime, s.position, s.totalEnergyDeposit, layer, s.copyNumber, s.trackID, s.pdgCode⟩

/-- WaterTankScintillatorSD::ProcessHits: returns the updated detector
state and the G4bool return value. -/
def scintProcessHits (threshold : ℚ) (st : ScintSDState) (s : ScintStep) :
    ScintSDState × Bool :=
  if s.particle = ParticleKind.opticalPhoton then (st, false)
  else if s.totalEnergyDeposit < threshold then (st, false)
  else if ¬ s.touchablePresent then (st, false)
  else
    match layerOfName s.volumeName with
    | none => (st, false)
    | some layer =>
      let key := scintKey s.trackID layer s.copyNumber
      if mapContains st.trackBarHits key then (st, false)
      else
        ({ trackBarHits := (key, s.globalTime) :: st.trackBarHits
           hits := st.hits ++ [mkScintHit s layer] }, true)

/-- Folding ProcessHits over the steps of one event from a given state. -/
def scintRunFrom (threshold : ℚ) (st : ScintSDState) (steps : List ScintStep) :
    ScintSDState :=
  steps.foldl (fun acc s => (scintProcessHits threshold acc s).1) st

/-- Detector state after all steps of one event, starting from the state
left by Initialize. -/
def scintRun (threshold : ℚ) (steps : List ScintStep) : ScintSDState :=
  scintRunFrom threshold scintInitialState steps

/-- Layer assigned to a step after the track-level filters of ProcessHits
(optical photon, threshold, touchable, volume name); none when any early
return fires before the dedup check. -/
def scintStepLayer (threshold : ℚ) (s : ScintStep) : Option Int :=
  if s.particle = ParticleKind.opticalPhoton then none
  else if s.totalEnergyDeposit < threshold then none
  else if ¬ s.touchablePresent then none
  else layerOfName s.volumeName

/-- Dedup key assigned to a step that passes the track-level filters. -/
def scintStepKey (threshold : ℚ) (s : ScintStep) : Option Int :=
  (scintStepLayer threshold s).map (fun l => scintKey s.trackID l s.copyNumber)

/-- Key of a recorded hit. -/
def scintHitKey (h : ScintHit) : Int := scintKey h.trackID h.layer h.barIndex

/-- Helper: ProcessHits rephrased through scintStepLayer. -/
theorem scintProcessHits_eq (threshold : ℚ) (st : ScintSDState) (s : ScintStep) :
    scintProcessHits threshold st s =
      match scintStepLayer threshold s with
      | none => (st, false)
      | some layer =>
        if mapContains st.trackBarHits (scintKey s.trackID layer s.copyNumber) then (st, false)
        else
          ({ trackBarHits := (scintKey s.trackID layer s.copyNumber, s.globalTime) ::
              st.trackBarHits
             hits := st.hits ++ [mkScintHit s layer] }, true) := by
  unfold scintProcessHits scintStepLayer
  split_ifs <;> rfl

/-- Helper: membership in the extended map. -/
theorem mapContains_cons (k' : Int) (t : ℚ) (m : List (Int × ℚ)) (k : Int) :
    mapContains ((k', t) :: m) k = (decide (k' = k) || mapContains m k) := by
  simp [mapContains]

/-- First step of the list that passes the track-level filters and carries
dedup key k. -/
def firstKeyedStep (threshold : ℚ) (k : Int) (steps : List ScintStep) : Option ScintStep :=
  steps.find? (fun s => decide (scintStepKey threshold s = some k))

/-- Hit contributed by a step when it passes the track-level filters. -/
def keyedHit (threshold : ℚ) (s : ScintStep) : List ScintHit :=
  match scintStepLayer threshold s with
  | some l => [mkScintHit s l]
  | none => []

/-- Helper lemma: for each dedup key, the hits accumulated over the steps
of an event extend the pre-existing ones by exactly the hit of the first
filtered step carrying that key, and by nothing when the key is already in
the map. -/
theorem scintRunFrom_filter_key (threshold : ℚ) (k : Int) :
    ∀ (steps : List ScintStep) (st : ScintSDState),
      ((scintRunFrom threshold st steps).hits.filter (fun h => decide (scintHitKey h = k))) =
        st.hits.filter (fun h => decide (scintHitKey h = k)) ++
          (if mapContains st.trackBarHits k then []
           else match firstKeyedStep threshold k steps with
             | some s => keyedHit threshold s
             | none => []) := by
  intro steps
  induction steps with
  | nil =>
    intro st
    show (st.hits.filter _) = _
    split_ifs <;> simp [firstKeyedStep]
  | cons s rest ih =>
    intro st
    have hrun : scintRunFrom threshold st (s :: rest) =
        scintRunFrom threshold ((scintProcessHits threshold st s).1) rest := rfl
    rw [hrun]
    rcases hL : scintStepLayer threshold s with _ | l
    · have h1 : (scintProcessHits threshold st s).1 = st := by
        rw [scintProcessHits_eq, hL]
      rw [h1, ih st]
      unfold firstKeyedStep
      rw [List.find?_cons_of_neg _ (by simp [scintStepKey, hL])]
    · by_cases hmem : mapContains st.trackBarHits (scintKey s.trackID l s.copyNumber) = true
      · have h1 : (scintProcessHits threshold st s).1 = st := by
          rw [scintProcessHits_eq, hL]; simp [hmem]
        rw [h1, ih st]
        by_cases hkk : scintKey s.trackID l s.copyNumber = k
        · have hmemk : mapContains st.trackBarHits k = true := hkk ▸ hmem
          have hpred : (decide (scintStepKey threshold s = some k)) = true := by
            simp [scintStepKey, hL, hkk]
          rw [if_pos hmemk, if_pos hmemk]
        · unfold firstKeyedStep
          rw [List.find?_cons_of_neg _ (by simp [scintStepKey, hL, hkk])]
      · have h1 : (scintProcessHits threshold st s).1 =
            { trackBarHits := (scintKey s.trackID l s.copyNumber, s.globalTime) ::
                st.trackBarHits
              hits := st.hits ++ [mkScintHit s l] } := by
          rw [scintProcessHits_eq, hL]; simp [hmem]
        rw [h1, ih _]
        by_cases hkk : scintKey s.trackID l s.copyNumber = k
        · have hmemk : mapContains st.trackBarHits k = false := by
            rw [← hkk]; simpa using hmem
          have hmemk2 : mapContains ((scintKey s.trackID l s.copyNumber, s.globalTime) ::
              st.trackBarHits) k = true := by
            rw [mapContains_cons, hkk]; simp
          rw [if_pos hmemk2, if_neg (by simp [hmemk])]
          unfold firstKeyedStep
          rw [List.find?_cons_of_pos _ (by simp [scintStepKey, hL, hkk])]
          have hhit : (mkScintHit s l).trackID = s.trackID ∧ (mkScintHit s l).layer = l ∧
              (mkScintHit s l).barIndex = s.copyNumber := ⟨rfl, rfl, rfl⟩
          have hkey : scintHitKey (mkScintHit s l) = k := hkk
          rw [List.filter_append]
          simp [keyedHit, hL, hkey]
        · have hkey : scintHitKey (mkScintHit s l) ≠ k := hkk
          have hmemk2 : mapContains ((scintKey s.trackID l s.copyNumber, s.globalTime) ::
              st.trackBarHits) k = mapContains st.trackBarHits k := by
            rw [mapContains_cons]; simp [hkk]
          rw [hmemk2, List.filter_append]
          unfold firstKeyedStep
          rw [List.find?_cons_of_neg _ (by simp [scintStepKey, hL, hkk])]
          simp [hkey]


/-- Helper: a volume name only ever yields layer 0 or 1. -/
theorem layerOfName_mem (name : String) (l : Int) (h : layerOfName name = some l) :
    l = 0 ∨ l = 1 := by
  unfold layerOfName at h
  split_ifs at h <;> simp_all

/-- Helper: the layer assigned to a filtered step is 0 or 1. -/
theorem scintStepLayer_mem (threshold : ℚ) (s : ScintStep) (l : Int)
    (h : scintStepLayer threshold s = some l) : l = 0 ∨ l = 1 := by
  unfold scintStepLayer at h
  split_ifs at h <;> first | exact layerOfName_mem _ _ h | simp_all

/-- Bounds on step data coming from the detector geometry: track ids are
non-negative and the bar copy numbers lie below 1000 (the construction
places 12 bars per layer). -/
def scintStepBounded (s : ScintStep) : Prop :=
  0 ≤ s.trackID ∧ 0 ≤ s.copyNumber ∧ s.copyNumber < 1000

/-- Bounds carried by every recorded hit. -/
def scintHitBounded (h : ScintHit) : Prop :=
  0 ≤ h.trackID ∧ 0 ≤ h.barIndex ∧ h.barIndex < 1000 ∧ (h.layer = 0 ∨ h.layer = 1)

instance (s : ScintStep) : Decidable (scintStepBounded s) := by
  unfold scintStepBounded; infer_instance

/-- Helper: hits recorded from bounded steps are bounded. -/
theorem scintRunFrom_hits_bounded (threshold : ℚ) :
    ∀ (steps : List ScintStep) (st : ScintSDState),
      (∀ s ∈ steps, scintStepBounded s) →
      (∀ h ∈ st.hits, scintHitBounded h) →
      ∀ h ∈ (scintRunFrom threshold st steps).hits, scintHitBounded h := by
  intro steps
  induction steps with
  | nil => intro st _ hst; exact hst
  | cons s rest ih =>
    intro st hsteps hst
    have hs := hsteps s (List.mem_cons_self s rest)
    have hrest : ∀ x ∈ rest, scintStepBounded x :=
      fun x hx => hsteps x (List.mem_cons_of_mem s hx)
    refine ih ((scintProcessHits threshold st s).1) hrest ?_
    rcases hL : scintStepLayer threshold s with _ | l
    · rw [scintProcessHits_eq, hL]; exact hst
    · by_cases hmem : mapContains st.trackBarHits (scintKey s.trackID l s.copyNumber) = true
      · rw [scintProcessHits_eq, hL]
        simp only [hmem, if_true]
        exact hst
      · rw [scintProcessHits_eq, hL]
        simp only [hmem, if_false, Bool.false_eq_true]
        intro h hh
        rcases List.mem_append.mp hh with hh | hh
        · exact hst h hh
        · have heq : h = mkScintHit s l := by simpa using hh
          subst heq
          exact ⟨hs.1, hs.2.1, hs.2.2, scintStepLayer_mem threshold s l hL⟩

/-- Helper: the dedup key determines the (track, layer, bar) triple within
the geometry bounds. -/
theorem scintKey_inj (t l b t2 l2 b2 : Int)
    (ht : 0 ≤ t) (hb : 0 ≤ b) (hb2 : b < 1000) (hl : l = 0 ∨ l = 1)
    (ht2 : 0 ≤ t2) (hbb : 0 ≤ b2) (hbb2 : b2 < 1000) (hl2 : l2 = 0 ∨ l2 = 1)
    (h : scintKey t l b = scintKey t2 l2 b2) : t = t2 ∧ l = l2 ∧ b = b2 := by
  unfold scintKey at h
  rcases hl with rfl | rfl <;> rcases hl2 with rfl | rfl <;>
    refine ⟨by omega, by omega, by omega⟩

/-- Helper: find? only depends on the predicate values on the list. -/
theorem find?_congr_mem {α : Type} (p q : α → Bool) :
    ∀ (x : List α), (∀ a ∈ x, p a = q a) → x.find? p = x.find? q := by
  intro x
  induction x with
  | nil => intro _; rfl
  | cons a rest ih =>
    intro hpq
    have ha := hpq a (List.mem_cons_self a rest)
    rcases hq : q a with _ | _
    · rw [List.find?_cons_of_neg _ (by simp [ha, hq]),
        List.find?_cons_of_neg _ (by simp [hq])]
      exact ih fun b hb => hpq b (List.mem_cons_of_mem a hb)
    · rw [List.find?_cons_of_pos _ (by simp [ha, hq]),
        List.find?_cons_of_pos _ (by simp [hq])]

/-- C8: within one event the scintillator sensitive detector records, for
every (track, layer, bar) combination inside the geometry bounds, exactly
the hit of the first step of that track in that bar that survives the
filters (charged particle, deposit at least the threshold, touchable
present, known bar volume) and no hit at all when no such step exists; and
a step by an optical photon or depositing less than the 0.1 MeV threshold
leaves the detector state unchanged and returns false. -/
theorem c8_scint_first_hit_dedup :
    (∀ (st : ScintSDState) (s : ScintStep),
      s.particle = ParticleKind.opticalPhoton ∨
          s.totalEnergyDeposit < scintEnergyThreshold →
        scintProcessHits scintEnergyThreshold st s = (st, false)) ∧
    (∀ (steps : List ScintStep) (t l b : Int),
      (∀ s ∈ steps, scintStepBounded s) →
      0 ≤ t → 0 ≤ b → b < 1000 → (l = 0 ∨ l = 1) →
      (scintRun scintEnergyThreshold steps).hits.filter
          (fun h => decide (h.trackID = t ∧ h.layer = l ∧ h.barIndex = b)) =
        (match steps.find? (fun s =>
            decide (scintStepLayer scintEnergyThreshold s = some l ∧
              s.trackID = t ∧ s.copyNumber = b)) with
          | some s => [mkScintHit s l]
          | none => [])) := by
  constructor
  · intro st s h
    rcases h with h | h
    · unfold scintProcessHits
      simp [h]
    · unfold scintProcessHits
      by_cases hp : s.particle = ParticleKind.opticalPhoton <;> simp [hp, h]
  · intro steps t l b hbs ht hb hb2 hl
    have hbd := scintRunFrom_hits_bounded scintEnergyThreshold steps scintInitialState hbs
      (by intro h hh; simp [scintInitialState] at hh)
    have hfilter : (scintRun scintEnergyThreshold steps).hits.filter
        (fun h => decide (h.trackID = t ∧ h.layer = l ∧ h.barIndex = b)) =
        (scintRun scintEnergyThreshold steps).hits.filter
          (fun h => decide (scintHitKey h = scintKey t l b)) := by
      refine List.filter_congr ?_
      intro h hh
      have hbnd := hbd h hh
      rw [decide_eq_decide]
      constructor
      · rintro ⟨rfl, rfl, rfl⟩; rfl
      · intro hk
        obtain ⟨h1, h2, h3⟩ := scintKey_inj h.trackID h.layer h.barIndex t l b
          hbnd.1 hbnd.2.1 hbnd.2.2.1 hbnd.2.2.2 ht hb hb2 hl hk
        exact ⟨h1, h2, h3⟩
    rw [hfilter]
    have hmain := scintRunFrom_filter_key scintEnergyThreshold (scintKey t l b) steps
      scintInitialState
    unfold scintRun
    rw [hmain]
    have hinit : mapContains scintInitialState.trackBarHits (scintKey t l b) = false := rfl
    rw [hinit]
    simp only [Bool.false_eq_true, if_false, scintInitialState, List.filter_nil,
      List.nil_append]
    have hpred : ∀ s ∈ steps,
        (fun s => decide (scintStepKey scintEnergyThreshold s = some (scintKey t l b))) s =
        (fun s => decide (scintStepLayer scintEnergyThreshold s = some l ∧
          s.trackID = t ∧ s.copyNumber = b)) s := by
      intro s hs
      have hsb := hbs s hs
      rw [decide_eq_decide]
      unfold scintStepKey
      constructor
      · intro hk
        rcases hL : scintStepLayer scintEnergyThreshold s with _ | ls
        · rw [hL] at hk; simp at hk
        · rw [hL] at hk
          simp only [Option.map, Option.bind, Option.some_inj] at hk
          obtain ⟨h1, h2, h3⟩ := scintKey_inj s.trackID ls s.copyNumber t l b
            hsb.1 hsb.2.1 hsb.2.2 (scintStepLayer_mem _ _ _ hL) ht hb hb2 hl hk
          exact ⟨congrArg some h2, h1, h3⟩
      · rintro ⟨hL, h1, h2⟩
        rw [hL]
        simp [h1, h2]
    unfold firstKeyedStep
    rw [find?_congr_mem _ _ steps hpred]
    rcases hfind : steps.find? (fun s =>
        decide (scintStepLayer scintEnergyThreshold s = some l ∧
          s.trackID = t ∧ s.copyNumber = b)) with _ | s
    · rfl
    · have hps := List.find?_some hfind
      simp only [decide_eq_true_eq] at hps
      show keyedHit scintEnergyThreshold s = [mkScintHit s l]
      unfold keyedHit
      rw [hps.1]


/-- Sample scintillator step by an optical photon (must be ignored). -/
def c8OpticalStep : ScintStep :=
  ⟨ParticleKind.opticalPhoton, 1, true, 3, "ScintBarL0", 5, (0, 0, 0), 7, 22⟩

/-- Sample charged step below the 0.1 MeV threshold (must be ignored). -/
def c8LowStep : ScintStep :=
  ⟨ParticleKind.other 13, 1 / 20, true, 3, "ScintBarL0", 6, (0, 0, 0), 7, 13⟩

/-- Sample first above-threshold step of track 7 in layer 0 bar 3. -/
def c8GoodStep : ScintStep :=
  ⟨ParticleKind.other 13, 2, true, 3, "ScintBarL0", 7, (0, 0, 0), 7, 13⟩

/-- Sample later step of the same track in the same bar (deduplicated). -/
def c8DupStep : ScintStep :=
  ⟨ParticleKind.other 13, 3, true, 3, "ScintBarL0", 8, (0, 0, 0), 7, 13⟩

/-- Sample event step list for the scintillator detector. -/
def c8SampleSteps : List ScintStep := [c8OpticalStep, c8LowStep, c8GoodStep, c8DupStep]

/-- Witness for C8: on a concrete event the optical step is ignored and the
(track 7, layer 0, bar 3) combination keeps exactly the hit of its first
above-threshold step. -/
theorem c8_scint_first_hit_dedup_witness :
    scintProcessHits scintEnergyThreshold scintInitialState c8OpticalStep =
      (scintInitialState, false) ∧
    (scintRun scintEnergyThreshold c8SampleSteps).hits.filter
        (fun h => decide (h.trackID = 7 ∧ h.layer = 0 ∧ h.barIndex = 3)) =
      [mkScintHit c8GoodStep 0] :=
  ⟨c8_scint_first_hit_dedup.1 scintInitialState c8OpticalStep (Or.inl rfl),
    (c8_scint_first_hit_dedup.2 c8SampleSteps 7 0 3 (by decide) (by decide) (by decide)
        (by decide) (Or.inl rfl)).trans (by
      norm_num [c8SampleSteps, c8OpticalStep, c8LowStep, c8GoodStep, c8DupStep,
        scintStepLayer, layerOfName, scintEnergyThreshold, MeV, List.find?]
      decide)⟩


/-! ## WaterTankEventAction (claim C10)

src/src/WaterTankEventAction.cc, EndOfEventAction (lines 44 to 173). -/

/-- Primary particle information extracted from the first primary vertex of
the event; none models an event without a primary vertex (all primary
fields then keep their zero initial values). -/
structure PrimaryInfo where
  pdg : Int
  kineticEnergy : ℚ
  position : ℚ × ℚ × ℚ
  direction : ℚ × ℚ × ℚ
deriving DecidableEq

/-- Row of the per-event summary ntuple as filled by EndOfEventAction
(columns 0 to 16 of ntuple 0, in creation order). -/
structure EventRow where
  eventID : Int
  edep_GeV : ℚ
  domHitCount : Int
  primaryPDG : Int
  primaryEnergy_GeV : ℚ
  primaryX_cm : ℚ
  primaryY_cm : ℚ
  primaryZ_cm : ℚ
  primaryDirX : ℚ
  primaryDirY : ℚ
  primaryDirZ : ℚ
  photonYield_per_GeV : ℚ
  firstPhotonTime_ns : ℚ
  lastPhotonTime_ns : ℚ
  avgWavelength_nm : ℚ
  timeRMS_ns : ℚ
  timeMedian_ns : ℚ
deriving DecidableEq

/-- WaterTankEventAction::EndOfEventAction restricted to the computation of
the per-event summary row. The DOM hits collection is none when the event
carries no such collection; sqrtFn stands for std::sqrt, which the code
only applies to positive variances. -/
def endOfEventRow (sqrtFn : ℚ → ℚ) (eventID : Int) (fEdep : ℚ)
    (primary : Option PrimaryInfo) (domHits : Option (List DOMHit)) : EventRow :=
  let primaryPDG := match primary with | some p => p.pdg | none => 0
  let primaryEnergy := match primary with | some p => p.kineticEnergy | none => 0
  let primaryPos := match primary with | some p => p.position | none => (0, 0, 0)
  let primaryDir := match primary with | some p => p.direction | none => (0, 0, 0)
  let detectionCount : Int := match domHits with | some hits => hits.length | none => 0
  let photonYield :=
    if 0 < primaryEnergy then (detectionCount : ℚ) / (primaryEnergy / GeV) else 0
  let stats :=
    match domHits with
    | some hits =>
      if 0 < detectionCount then
        let sumWavelength := (hits.map DOMHit.wavelength).sum
        let sumTime := (hits.map DOMHit.time).sum
        let sumTime2 := (hits.map (fun (hh : DOMHit) => hh.time * hh.time)).sum
        let firstT := hits.foldl
          (fun (acc : ℚ) (hh : DOMHit) => if hh.time < acc then hh.time else acc)
          ((10 : ℚ) ^ 9)
        let lastT := hits.foldl
          (fun (acc : ℚ) (hh : DOMHit) => if acc < hh.time then hh.time else acc)
          (-((10 : ℚ) ^ 9))
        let avgWavelength := sumWavelength / (detectionCount : ℚ)
        let meanTime := sumTime / (detectionCount : ℚ)
        let variance := sumTime2 / (detectionCount : ℚ) - meanTime * meanTime
        let timeRMS := if 0 < variance then sqrtFn variance else 0
        let sorted := (hits.map DOMHit.time).mergeSort (fun a b => decide (a ≤ b))
        let n := sorted.length
        let timeMedian :=
          if n % 2 = 0 then (sorted.getD (n / 2 - 1) 0 + sorted.getD (n / 2) 0) / 2
          else sorted.getD (n / 2) 0
        (firstT, lastT, avgWavelength, timeRMS, timeMedian)
      else ((-1 : ℚ), (-1 : ℚ), (0 : ℚ), (0 : ℚ), (0 : ℚ))
    | none => ((-1 : ℚ), (-1 : ℚ), (0 : ℚ), (0 : ℚ), (0 : ℚ))
  { eventID := eventID
    edep_GeV := fEdep / GeV
    domHitCount := detectionCount
    primaryPDG := primaryPDG
    primaryEnergy_GeV := primaryEnergy / GeV
    primaryX_cm := primaryPos.1 / cm
    primaryY_cm := primaryPos.2.1 / cm
    primaryZ_cm := primaryPos.2.2 / cm
    primaryDirX := primaryDir.1
    primaryDirY := primaryDir.2.1
    primaryDirZ := primaryDir.2.2
    photonYield_per_GeV := photonYield
    firstPhotonTime_ns := stats.1 / ns
    lastPhotonTime_ns := stats.2.1 / ns
    avgWavelength_nm := stats.2.2.1 / nm
    timeRMS_ns := stats.2.2.2.1 / ns
    timeMedian_ns := stats.2.2.2.2 / ns }

/-- C10: an event with zero DOM photon hits (no collection or an empty
one) is written with sentinel values: first and last photon time -1 ns,
average wavelength, time RMS and time median 0, and photon yield 0; and
the photon yield is 0 whenever the primary kinetic energy is not positive,
whatever the hit count. -/
theorem c10_zero_hit_sentinels :
    (∀ (sqrtFn : ℚ → ℚ) (eventID : Int) (fEdep : ℚ) (primary : Option PrimaryInfo)
        (domHits : Option (List DOMHit)),
      domHits = none ∨ domHits = some [] →
        (endOfEventRow sqrtFn eventID fEdep primary domHits).firstPhotonTime_ns = -1 ∧
        (endOfEventRow sqrtFn eventID fEdep primary domHits).lastPhotonTime_ns = -1 ∧
        (endOfEventRow sqrtFn eventID fEdep primary domHits).avgWavelength_nm = 0 ∧
        (endOfEventRow sqrtFn eventID fEdep primary domHits).timeRMS_ns = 0 ∧
        (endOfEventRow sqrtFn eventID fEdep primary domHits).timeMedian_ns = 0 ∧
        (endOfEventRow sqrtFn eventID fEdep primary domHits).photonYield_per_GeV = 0) ∧
    (∀ (sqrtFn : ℚ → ℚ) (eventID : Int) (fEdep : ℚ) (primary : Option PrimaryInfo)
        (domHits : Option (List DOMHit)),
      (∀ p, primary = some p → p.kineticEnergy ≤ 0) →
        (endOfEventRow sqrtFn eventID fEdep primary domHits).photonYield_per_GeV = 0) := by
  constructor
  · intro sqrtFn eventID fEdep primary domHits h
    rcases h with rfl | rfl <;>
      unfold endOfEventRow <;>
      rcases primary with _ | p <;>
      simp [ns, nm, GeV, MeV]
  · intro sqrtFn eventID fEdep primary domHits h
    unfold endOfEventRow
    rcases primary with _ | p
    · dsimp only
      rw [if_neg (by norm_num)]
    · have hp := h p rfl
      dsimp only
      rw [if_neg (not_lt.mpr hp)]


/-- Sample DOM hit used by the C10 witness. -/
def c10SampleHit : DOMHit :=
  ⟨12, (0, 0, 165), (0, 0, 1), 3 / 1000000, 414 / 1000000000, 8, 1⟩

/-- Witness for C10: a concrete event with an empty hits collection gets
the -1 sentinel, and a concrete event without a primary vertex but with a
hit still gets photon yield 0. -/
theorem c10_zero_hit_sentinels_witness :
    (endOfEventRow id 3 (1 / 2) (some ⟨13, 4000, (0, 0, -500), (0, 0, 1)⟩)
        (some [])).firstPhotonTime_ns = -1 ∧
    (endOfEventRow id 4 0 none (some [c10SampleHit])).photonYield_per_GeV = 0 :=
  ⟨(c10_zero_hit_sentinels.1 id 3 (1 / 2) (some ⟨13, 4000, (0, 0, -500), (0, 0, 1)⟩)
      (some []) (Or.inr rfl)).1,
    c10_zero_hit_sentinels.2 id 4 0 none (some [c10SampleHit]) (fun p hp => nomatch hp)⟩

/-! ## WaterTankRunAction end of run (claim C4)

src/src/WaterTankRunAction.cc, EndOfRunAction (lines 162 to 231), and the
Analysis singleton EndRun (src/unnamed/part_007, lines 175 to 212). -/

/-- Calls made on the accumulable and analysis managers at end of run. -/
inductive AnalysisOp
  | merge
  | write
  | closeFile
deriving DecidableEq, Repr

/-- WaterTankRunAction::EndOfRunAction abstracted to the manager calls it
performs, in order: a run with zero events returns at once; otherwise the
accumulables are merged, run statistics are printed, and the analysis
manager Write and CloseFile are invoked. -/
def endOfRunActionOps (numberOfEvents : Nat) : List AnalysisOp :=
  if numberOfEvents = 0 then []
  else [AnalysisOp.merge, AnalysisOp.write, AnalysisOp.closeFile]

/-- Analysis::EndRun abstracted the same way: it returns early unless a
run is active and the caller is the master thread, then writes and closes
the file. -/
def analysisEndRunOps (runActive masterThread : Bool) : List AnalysisOp :=
  if ¬ runActive then []
  else if ¬ masterThread then []
  else [AnalysisOp.write, AnalysisOp.closeFile]

/-- Counterexample for C4: a completed run of zero events invokes neither
Write nor CloseFile, because EndOfRunAction returns at its first guard. -/
theorem c4_zero_event_run_counterexample :
    ¬ (AnalysisOp.write ∈ endOfRunActionOps 0 ∧
        AnalysisOp.closeFile ∈ endOfRunActionOps 0) := by decide

/-- C4 (amended): at the end of every run with at least one event the run
action invokes the analysis manager Write and CloseFile, flushing the
records of the run; a zero-event run (during which nothing was filled)
returns early without them, and Analysis::EndRun writes and closes only
for an active run on the master thread: it flushes when the run is active
and the caller is the master thread, performs nothing on a worker thread
even for an active run, and performs nothing when no run is active. -/
theorem c4_flush_on_nonempty_run :
    (∀ n : Nat, 0 < n →
      AnalysisOp.write ∈ endOfRunActionOps n ∧
        AnalysisOp.closeFile ∈ endOfRunActionOps n) ∧
    endOfRunActionOps 0 = [] ∧
    analysisEndRunOps true true = [AnalysisOp.write, AnalysisOp.closeFile] ∧
    analysisEndRunOps true false = [] ∧
    (∀ master : Bool, analysisEndRunOps false master = []) := by
  refine ⟨?_, rfl, rfl, rfl, fun master => rfl⟩
  intro n hn
  unfold endOfRunActionOps
  rw [if_neg (Nat.pos_iff_ne_zero.mp hn)]
  exact ⟨by simp, by simp⟩

/-- Witness for C4 (amended): a five-event run flushes. -/
theorem c4_flush_on_nonempty_run_witness :
    AnalysisOp.write ∈ endOfRunActionOps 5 ∧ AnalysisOp.closeFile ∈ endOfRunActionOps 5 :=
  c4_flush_on_nonempty_run.1 5 (by decide)

/-! ## WaterTankCRYPrimaryGenerator (claim C5)

src/src/WaterTankCRYPrimaryGenerator.cc, SetupCRY (lines 61 to 109) and
GeneratePrimaryVertex (lines 111 to 119). -/

/-- Severity of a G4Exception call. -/
inductive ExceptionSeverity
  | fatalException
  | justWarning
deriving DecidableEq, Repr

/-- Record of one G4Exception call: issuing location, error code, severity
and the streamed message. -/
structure G4ExceptionRecord where
  origin : String
  code : String
  severity : ExceptionSeverity
  message : String
deriving DecidableEq

/-- State of the CRY generator wrapper (its fInitialized flag). -/
structure CRYGenState where
  initialized : Bool
deriving DecidableEq

/-- State after the constructor ran Initialize (fInitialized false). -/
def initialCRYState : CRYGenState := ⟨false⟩

/-- SetupCRY(setupString, dataPath): parseError carries the what() text of
the exception the CRY library throws when the setup string cannot be
parsed, none on success. Returns the new state and the raised exception,
if any. -/
def setupCRYFromString (st : CRYGenState) (parseError : Option String) :
    CRYGenState × Option G4ExceptionRecord :=
  match parseError with
  | some what =>
    (st, some ⟨"WaterTankCRYPrimaryGenerator::SetupCRY()", "CRYSetup002",
      ExceptionSeverity.fatalException, "Failed to initialize CRY generator: " ++ what⟩)
  | none => ({ st with initialized := true }, none)

/-- SetupCRY(setupFile): fileContents is none when the setup file cannot
be opened; parse yields the CRY parse outcome on the file text. -/
def setupCRYFromFile (st : CRYGenState) (setupFile : String)
    (fileContents : Option String) (parse : String → Option String) :
    CRYGenState × Option G4ExceptionRecord :=
  match fileContents with
  | none =>
    (st, some ⟨"WaterTankCRYPrimaryGenerator::SetupCRY()", "CRYSetup001",
      ExceptionSeverity.fatalException, "Failed to open CRY setup file: " ++ setupFile⟩)
  | some text => setupCRYFromString st (parse text)

/-- GeneratePrimaryVertex: raises a fatal exception and generates nothing
when the generator is not initialized; the Bool tells whether shower
particles were converted into a primary vertex. -/
def cryGeneratePrimaryVertex (st : CRYGenState) : Option G4ExceptionRecord × Bool :=
  if ¬ st.initialized then
    (some ⟨"WaterTankCRYPrimaryGenerator::GeneratePrimaryVertex()", "CRYGenerate001",
      ExceptionSeverity.fatalException,
      "CRY generator not initialized. Call SetupCRY() first."⟩, false)
  else (none, true)

/-- Character-list comparison: needle starts the haystack. -/
def listStartsWith : List Char → List Char → Bool
  | [], _ => true
  | _ :: _, [] => false
  | a :: as, b :: bs => a == b && listStartsWith as bs

/-- Character-list comparison: needle occurs inside the haystack. -/
def listInfixTest (needle : List Char) : List Char → Bool
  | [] => needle.isEmpty
  | b :: bs => listStartsWith needle (b :: bs) || listInfixTest needle bs

/-- Substring test stating that a message names the setup file. -/
def msgNames (msg file : String) : Bool := listInfixTest file.toList msg.toList

/-- Helper: a list starts with itself. -/
theorem listStartsWith_self (l : List Char) : listStartsWith l l = true := by
  induction l with
  | nil => rfl
  | cons a as ih => simp [listStartsWith, ih]

/-- Helper: a list occurs inside itself. -/
theorem listInfixTest_self (l : List Char) : listInfixTest l l = true := by
  cases l with
  | nil => rfl
  | cons a as => simp [listInfixTest, listStartsWith_self]

/-- Helper: a suffix occurs inside the whole list. -/
theorem listInfixTest_append (x l : List Char) : listInfixTest l (x ++ l) = true := by
  induction x with
  | nil => simpa using listInfixTest_self l
  | cons c xs ih => simp [listInfixTest, ih]

/-- Counterexample for C5: with a readable setup file whose text the CRY
library rejects, the raised fatal exception message carries only the
library error and does not name the failing setup file. -/
theorem c5_parse_error_counterexample :
    ((setupCRYFromFile initialCRYState "cry_setup.file" (some "returnMuons 1")
        (fun _ => some "unrecognized keyword")).2.map
      (fun e => (e.severity, msgNames e.message "cry_setup.file"))) =
      some (ExceptionSeverity.fatalException, false) := by decide

/-- C5 (amended): when the setup file cannot be opened, SetupCRY raises a
fatal exception whose message names the failing file and leaves the
generator uninitialized; when the file text cannot be parsed, it raises a
fatal exception carrying the library error description (not necessarily
naming the file) and leaves the state unchanged; and an uninitialized
generator raises a fatal exception and generates no vertex when asked to
generate. -/
theorem c5_fatal_on_setup_failure :
    (∀ (st : CRYGenState) (file : String) (parse : String → Option String),
      ((setupCRYFromFile st file none parse).2.map
          (fun e => (e.severity, msgNames e.message file))) =
        some (ExceptionSeverity.fatalException, true) ∧
      (setupCRYFromFile st file none parse).1 = st) ∧
    (∀ (st : CRYGenState) (what : String),
      ((setupCRYFromString st (some what)).2.map (fun e => e.severity)) =
        some ExceptionSeverity.fatalException ∧
      (setupCRYFromString st (some what)).1 = st) ∧
    (∀ st : CRYGenState, st.initialized = false →
      (cryGeneratePrimaryVertex st).2 = false ∧
        ((cryGeneratePrimaryVertex st).1.map (fun e => e.severity)) =
          some ExceptionSeverity.fatalException) := by
  refine ⟨?_, fun st what => ⟨rfl, rfl⟩, ?_⟩
  · intro st file parse
    refine ⟨?_, rfl⟩
    unfold setupCRYFromFile msgNames
    simp only [Option.map]
    have hsub : listInfixTest file.toList
        ("Failed to open CRY setup file: " ++ file).toList = true := by
      have hT : ("Failed to open CRY setup file: " ++ file).toList =
          "Failed to open CRY setup file: ".toList ++ file.toList := by
        simp [String.toList, String.data_append]
      rw [hT]
      exact listInfixTest_append _ _
    rw [hsub]
  · intro st hst
    unfold cryGeneratePrimaryVertex
    rw [if_pos (by simp [hst])]
    exact ⟨rfl, rfl⟩

/-- Witness for C5 (amended): a concrete unopenable file gives a fatal
exception naming it, and the concrete fresh generator refuses to
generate. -/
theorem c5_fatal_on_setup_failure_witness :
    ((setupCRYFromFile initialCRYState "cry_setup.file" none (fun _ => none)).2.map
        (fun e => (e.severity, msgNames e.message "cry_setup.file"))) =
      some (ExceptionSeverity.fatalException, true) ∧
    (cryGeneratePrimaryVertex initialCRYState).2 = false :=
  ⟨(c5_fatal_on_setup_failure.1 initialCRYState "cry_setup.file" (fun _ => none)).1,
    (c5_fatal_on_setup_failure.2.2 initialCRYState rfl).1⟩

/-! ## WaterTankPrimaryGeneratorAction single muon mode (claim C6)

src/src/WaterTankPrimaryGeneratorAction.cc, GenerateSingleMuon (lines 71
to 115). -/

/-- World box solid data relevant to the lookup (its half length along
z). -/
structure WorldBox where
  zHalfLength : ℚ
deriving DecidableEq

/-- Muon configuration held by the generator action. -/
structure SingleMuonConfig where
  muonEnergy : ℚ
  muonDirection : ℚ × ℚ × ℚ
  muonPosition : ℚ × ℚ × ℚ
  useCustomPosition : Bool

/-- Particle gun state and outcome of one GenerateSingleMuon call. -/
structure MuonGenerateOutcome where
  gunEnergy : ℚ
  gunDirection : ℚ × ℚ × ℚ
  gunPosition : ℚ × ℚ × ℚ
  warning : Option G4ExceptionRecord
  vertexGenerated : Bool

/-- WaterTankPrimaryGeneratorAction::GenerateSingleMuon. The worldBox
argument is the cached or freshly looked-up World box solid, none when the
store lookup or the dynamic cast fails; unitFn stands for
Hep3Vector::unit applied to the configured direction. -/
def generateSingleMuon (unitFn : ℚ × ℚ × ℚ → ℚ × ℚ × ℚ)
    (cfg : SingleMuonConfig) (worldBox : Option WorldBox) : MuonGenerateOutcome :=
  let energy := cfg.muonEnergy
  let dir := unitFn cfg.muonDirection
  if cfg.useCustomPosition then
    ⟨energy, dir, cfg.muonPosition, none, true⟩
  else
    let envSizeZ := match worldBox with
      | some box => box.zHalfLength * 2
      | none => 0
    let warning : Option G4ExceptionRecord := match worldBox with
      | some _ => none
      | none => some ⟨"WaterTankPrimaryGeneratorAction::GenerateSingleMuon()", "MyCode0002",
          ExceptionSeverity.justWarning,
          "World volume of box shape not found. Perhaps you have changed geometry. The gun will be placed at the center."⟩
    ⟨energy, dir, (0, 0, -(1 / 2) * envSizeZ + 1 * mm), warning, true⟩

/-- C6: when the World box lookup fails during single-muon generation in
auto-position mode, the code issues a JustWarning exception (not a fatal
one), the envelope size stays zero so the gun is placed at
(0, 0, 1 mm), and the primary vertex is still generated. -/
theorem c6_world_lookup_warning (unitFn : ℚ × ℚ × ℚ → ℚ × ℚ × ℚ)
    (cfg : SingleMuonConfig) (h : cfg.useCustomPosition = false) :
    ((generateSingleMuon unitFn cfg none).warning.map (fun e => e.severity)) =
      some ExceptionSeverity.justWarning ∧
    (generateSingleMuon unitFn cfg none).gunPosition = (0, 0, mm) ∧
    (generateSingleMuon unitFn cfg none).vertexGenerated = true := by
  unfold generateSingleMuon
  rw [if_neg (by simp [h])]
  refine ⟨rfl, ?_, rfl⟩
  show ((0 : ℚ), (0 : ℚ), -(1 / 2) * 0 + 1 * mm) = ((0 : ℚ), (0 : ℚ), mm)
  norm_num

/-- Sample muon configuration in auto-position mode. -/
def c6SampleConfig : SingleMuonConfig := ⟨4000, (0, 0, 1), (0, 0, 0), false⟩

/-- Witness for C6: the concrete default configuration with a failed World
lookup warns, parks the gun at (0, 0, 1 mm) and still generates. -/
theorem c6_world_lookup_warning_witness :
    ((generateSingleMuon id c6SampleConfig none).warning.map (fun e => e.severity)) =
      some ExceptionSeverity.justWarning ∧
    (generateSingleMuon id c6SampleConfig none).gunPosition = (0, 0, mm) ∧
    (generateSingleMuon id c6SampleConfig none).vertexGenerated = true :=
  c6_world_lookup_warning id c6SampleConfig rfl

/-! ## Analysis run-summary counters and the mutex (claim C7)

src/unnamed/part_007: ResetRunAccumulators (lines 133 to 140),
RecordEventSummary (lines 250 to 290) and EndRun (lines 175 to 212);
src/include/Analysis.hh lines 92 to 98 declare the counters and the
static fMutex. -/

/-- Shared run-summary counters of the Analysis singleton. -/
inductive SummaryCounter
  | sumNPE
  | sumFirstHit
  | eventsWithHits
  | eventsProcessed
deriving DecidableEq, Repr

/-- Member functions of Analysis that touch the counters. -/
inductive AnalysisFn
  | recordEventSummary
  | resetRunAccumulators
  | endRun
deriving DecidableEq, Repr

/-- One source-level access to a shared counter: the function it occurs
in, the counter touched, whether it writes, and whether it happens while
holding the static fMutex through a G4AutoLock. -/
structure CounterAccess where
  fn : AnalysisFn
  counter : SummaryCounter
  isWrite : Bool
  underMutex : Bool
deriving DecidableEq, Repr

/-- Transcription of every access to the four counters in Analysis.cc:
ResetRunAccumulators zeroes all four inside its G4AutoLock block;
RecordEventSummary increments fEventsProcessed, adds to fSumNPE and
conditionally to fSumFirstHit and fEventsWithHits inside its G4AutoLock
block; EndRun reads all four for the run summary printout after closing
the file, without taking the mutex. -/
def analysisCounterAccesses : List CounterAccess := [
  ⟨AnalysisFn.resetRunAccumulators, SummaryCounter.sumNPE, true, true⟩,
  ⟨AnalysisFn.resetRunAccumulators, SummaryCounter.sumFirstHit, true, true⟩,
  ⟨AnalysisFn.resetRunAccumulators, SummaryCounter.eventsWithHits, true, true⟩,
  ⟨AnalysisFn.resetRunAccumulators, SummaryCounter.eventsProcessed, true, true⟩,
  ⟨AnalysisFn.recordEventSummary, SummaryCounter.eventsProcessed, true, true⟩,
  ⟨AnalysisFn.recordEventSummary, SummaryCounter.sumNPE, true, true⟩,
  ⟨AnalysisFn.recordEventSummary, SummaryCounter.sumFirstHit, true, true⟩,
  ⟨AnalysisFn.recordEventSummary, SummaryCounter.eventsWithHits, true, true⟩,
  ⟨AnalysisFn.endRun, SummaryCounter.eventsProcessed, false, false⟩,
  ⟨AnalysisFn.endRun, SummaryCounter.sumNPE, false, false⟩,
  ⟨AnalysisFn.endRun, SummaryCounter.eventsWithHits, false, false⟩,
  ⟨AnalysisFn.endRun, SummaryCounter.sumFirstHit, false, false⟩]

/-- Counterexample for C7: not every access to the shared counters holds
the mutex; EndRun reads them for its summary printout unguarded. -/
theorem c7_unguarded_read_counterexample :
    ¬ (∀ a ∈ analysisCounterAccesses, a.underMutex = true) := by decide

/-- C7 (amended): every mutating access to the shared run-summary
counters (all of RecordEventSummary and ResetRunAccumulators) happens
while holding the single static mutex; the only unguarded accesses are
the read-only ones in the EndRun summary printout. -/
theorem c7_mutex_guards_all_writes :
    (∀ a ∈ analysisCounterAccesses, a.isWrite = true → a.underMutex = true) ∧
    (∀ a ∈ analysisCounterAccesses, a.underMutex = false →
      a.fn = AnalysisFn.endRun ∧ a.isWrite = false) := by decide

/-- Witness for C7 (amended): the fSumNPE update of RecordEventSummary is
a guarded write. -/
theorem c7_mutex_guards_all_writes_witness :
    (⟨AnalysisFn.recordEventSummary, SummaryCounter.sumNPE, true, true⟩ :
      CounterAccess).underMutex = true :=
  c7_mutex_guards_all_writes.1
    ⟨AnalysisFn.recordEventSummary, SummaryCounter.sumNPE, true, true⟩
    (by decide) rfl

/-! ## Event ntuple schema and the scintillator coincidence flag (claim C3)

The scintillator aware run action (src/unnamed/part_002, lines 44 to 80)
creates the per-event summary ntuple columns; the ROOT analysis macro
(src/unnamed/part_008) consumes the ScintCoincidence column. -/

/-- Column names of the per-event summary ntuple in creation order, from
WaterTankRunAction::WaterTankRunAction in src/unnamed/part_002. -/
def eventNtupleColumns : List String := [
  "EventID", "Edep_GeV", "DOMHitCount", "PrimaryPDG", "PrimaryEnergy_GeV",
  "PrimaryX_cm", "PrimaryY_cm", "PrimaryZ_cm", "PrimaryDirX", "PrimaryDirY",
  "PrimaryDirZ", "PhotonYield_per_GeV", "FirstPhotonTime_ns", "LastPhotonTime_ns",
  "AvgPhotonWavelength_nm", "TimeRMS_ns", "TimeMedian_ns", "ScintHitCount",
  "ScintL0HitCount", "ScintL1HitCount", "ScintFirstTime_ns", "ScintL0FirstTime_ns",
  "ScintL1FirstTime_ns", "ScintL0FirstBar", "ScintL1FirstBar", "ScintTotalEdep_MeV",
  "TOF_ns", "TOF_L0_ns", "TOF_L1_ns", "ScintCoincidence"]

/-- Modelled from the spec: the end-of-event code filling the scintillator
trigger columns of the per-event row is not among the repository sources
(only the run action column declarations in src/unnamed/part_002 and the
analysis macro reading ScintCoincidence in src/unnamed/part_008 are
present); per the spec the record carries a scintillator-trigger
coincidence flag that is 1 when both scintillator layers were hit in the
event and 0 otherwise. -/
def eventScintCoincidence (scintHits : List ScintHit) : Int :=
  if (scintHits.any (fun h => decide (h.layer = 0))) &&
      (scintHits.any (fun h => decide (h.layer = 1))) then 1 else 0

/-- Modelled from the spec: the sequence of values appended to the
ScintCoincidence column at end of event: exactly one per event, computed
from the scintillator hits of that event. -/
def endOfEventScintCoincidenceFill (scintHits : List ScintHit) : List Int :=
  [eventScintCoincidence scintHits]

/-- C3: the per-event summary schema carries the ScintCoincidence column
(at index 29), the end-of-event fill appends exactly one value to it per
event, and that value is 1 exactly when both scintillator layers recorded
a hit in the event and 0 otherwise. -/
theorem c3_scint_coincidence_flag :
    eventNtupleColumns[29]? = some "ScintCoincidence" ∧
    (∀ scintHits : List ScintHit,
      endOfEventScintCoincidenceFill scintHits = [eventScintCoincidence scintHits] ∧
      (endOfEventScintCoincidenceFill scintHits).length = 1) ∧
    (∀ scintHits : List ScintHit,
      (eventScintCoincidence scintHits = 1 ↔
        (∃ h ∈ scintHits, h.layer = 0) ∧ (∃ h2 ∈ scintHits, h2.layer = 1)) ∧
      (eventScintCoincidence scintHits = 0 ∨ eventScintCoincidence scintHits = 1)) := by
  refine ⟨rfl, fun scintHits => ⟨rfl, rfl⟩, fun scintHits => ⟨?_, ?_⟩⟩
  · unfold eventScintCoincidence
    split_ifs with hc
    · simp only [Bool.and_eq_true, List.any_eq_true, decide_eq_true_eq] at hc
      exact iff_of_true rfl hc
    · simp only [Bool.and_eq_true, List.any_eq_true, decide_eq_true_eq] at hc
      exact iff_of_false (by norm_num) hc
  · unfold eventScintCoincidence
    split_ifs <;> simp

end WaterTank
